import Mathlib

/-!
Shallow embedding of `review_parser.py` (code-review scoring pipeline).

Numbers that Python stores as `float` are modelled as exact rationals (`ℚ`);
the scoring coefficients (10.0, 5.0, 1.0, 0.1, 0.2, 2) are all exactly
representable, and the claims under study are about the formula, the
thresholds and the data flow, not about IEEE-754 rounding.
-/

namespace ReviewParser

/-- Python `class Severity(Enum)`: severity levels for code review findings. -/
inductive Severity where
  | critical
  | error
  | warning
  | info
deriving DecidableEq, Repr

/-- Python `class IssueCategory(Enum)`: categories of code review issues. -/
inductive IssueCategory where
  | architecture
  | code_quality
  | testing
  | security
  | documentation
  | performance
  | anti_pattern
deriving DecidableEq, Repr

/-- Python `@dataclass CodeIssue`: one code review issue. -/
structure CodeIssue where
  category : IssueCategory
  severity : Severity
  message : String
  file_path : String
  line_number : Option Int := none
  suggestion : Option String := none
  rule_id : Option String := none
deriving DecidableEq, Repr

/-- Python `@dataclass LayerMetrics`: metrics for architectural layers. -/
structure LayerMetrics where
  name : String
  file_count : Nat := 0
  line_count : Nat := 0
  violation_count : Nat := 0
  test_coverage : ℚ := 0
deriving DecidableEq, Repr

/-- Python `@dataclass CodeMetrics`: overall code metrics.  The Python field
`layer_metrics` is an insertion-ordered `Dict[str, LayerMetrics]`; it is
modelled as an association list in insertion order. -/
structure CodeMetrics where
  total_files : Nat := 0
  total_lines : Nat := 0
  avg_complexity : ℚ := 0
  test_coverage : ℚ := 0
  duplication_percentage : ℚ := 0
  technical_debt_ratio : ℚ := 0
  layer_metrics : List (String × LayerMetrics) := []
deriving DecidableEq, Repr

/-- Python `datetime`: only the fields consumed by `strftime("%Y-%m-%d %H:%M:%S")`. -/
structure DateTime where
  year : Nat
  month : Nat
  day : Nat
  hour : Nat
  minute : Nat
  second : Nat
deriving DecidableEq, Repr

/-- Python `@dataclass ReviewResult`: complete review result. -/
structure ReviewResult where
  timestamp : DateTime
  metrics : CodeMetrics
  issues : List CodeIssue := []
  passed : Bool := true
  score : ℚ := 0
deriving DecidableEq, Repr

/-! ### Raw input

The loosely-typed JSON tree fed to `parse_review_data`.  A missing key is
`none`; a present key carries its (already well-typed) value.  Unknown extra
keys are never read by the code, so they are not modelled. -/

/-- One element of the raw `issues` array. -/
structure RawIssue where
  category : Option String := none
  severity : Option String := none
  message : Option String := none
  file : Option String := none
  line : Option Int := none
  suggestion : Option String := none
  rule_id : Option String := none
deriving DecidableEq, Repr

/-- One value of the raw `metrics.layers` mapping. -/
structure RawLayer where
  files : Option Nat := none
  lines : Option Nat := none
  violations : Option Nat := none
  coverage : Option ℚ := none
deriving DecidableEq, Repr

/-- The raw `metrics` sub-tree. -/
structure RawMetrics where
  total_files : Option Nat := none
  total_lines : Option Nat := none
  avg_complexity : Option ℚ := none
  test_coverage : Option ℚ := none
  duplication : Option ℚ := none
  tech_debt_ratio : Option ℚ := none
  layers : Option (List (String × RawLayer)) := none
deriving DecidableEq, Repr

/-- The whole raw input document. -/
structure RawReviewData where
  metrics : Option RawMetrics := none
  issues : Option (List RawIssue) := none
deriving DecidableEq, Repr

/-- Python `Severity(value)`: the Enum constructor; raises `ValueError` (here: `none`)
on an unrecognized string. -/
def severityOfString (s : String) : Option Severity :=
  if s = "critical" then some .critical
  else if s = "error" then some .error
  else if s = "warning" then some .warning
  else if s = "info" then some .info
  else none

/-- Python `IssueCategory(value)`: the Enum constructor; raises `ValueError`
(here: `none`) on an unrecognized string. -/
def categoryOfString (s : String) : Option IssueCategory :=
  if s = "architecture" then some .architecture
  else if s = "code_quality" then some .code_quality
  else if s = "testing" then some .testing
  else if s = "security" then some .security
  else if s = "documentation" then some .documentation
  else if s = "performance" then some .performance
  else if s = "anti_pattern" then some .anti_pattern
  else none

/-- Body of the `try` block in `_extract_issues`: build one `CodeIssue` from a
raw element.  `none` corresponds to the `KeyError` (missing `message`/`file`)
or `ValueError` (unrecognized category/severity) caught by the `except`. -/
def extractIssue (issue_data : RawIssue) : Option CodeIssue :=
  match categoryOfString (issue_data.category.getD "code_quality"),
        severityOfString (issue_data.severity.getD "info"),
        issue_data.message, issue_data.file with
  | some cat, some sev, some msg, some fp =>
      some { category := cat, severity := sev, message := msg, file_path := fp,
             line_number := issue_data.line, suggestion := issue_data.suggestion,
             rule_id := issue_data.rule_id }
  | _, _, _, _ => none

/-- Python `ReviewParser._extract_issues`: the Python loop appends each issue that
constructs without an exception and skips (with a printed warning) each one
that raises, i.e. a `filterMap` over the raw list; a missing `issues` key
yields the empty list. -/
def extract_issues (data : RawReviewData) : List CodeIssue :=
  (data.issues.getD []).filterMap extractIssue

/-- Conversion of one `layers` entry inside `_extract_metrics`:
`LayerMetrics(name=layer_name, file_count=layer_data.get('files', 0), ...)`. -/
def extractLayer (layer_name : String) (layer_data : RawLayer) : LayerMetrics :=
  { name := layer_name
    file_count := layer_data.files.getD 0
    line_count := layer_data.lines.getD 0
    violation_count := layer_data.violations.getD 0
    test_coverage := layer_data.coverage.getD 0 }

/-- Python `ReviewParser._extract_metrics`: starts from `CodeMetrics()` (all defaults)
and, when the `metrics` key is present, fills each field with `m.get(key, 0)`;
layer entries come from the nested `layers` mapping in insertion order. -/
def extract_metrics (data : RawReviewData) : CodeMetrics :=
  match data.metrics with
  | none => {}
  | some m =>
      { total_files := m.total_files.getD 0
        total_lines := m.total_lines.getD 0
        avg_complexity := m.avg_complexity.getD 0
        test_coverage := m.test_coverage.getD 0
        duplication_percentage := m.duplication.getD 0
        technical_debt_ratio := m.tech_debt_ratio.getD 0
        layer_metrics :=
          (m.layers.getD []).map (fun p => (p.1, extractLayer p.1 p.2)) }

/-- The `severity_weights` dict in `_calculate_score`.  The dict covers every
`Severity` member, so the `.get(severity, 0)` default is unreachable. -/
def severity_weights (s : Severity) : ℚ :=
  match s with
  | .critical => 10
  | .error => 5
  | .warning => 1
  | .info => 0.1

/-- Python `ReviewParser._calculate_score`: 100 minus the per-issue severity weights
(the `for` loop is a sum over the list), minus the two conditional metric
adjustments, clamped to [0, 100] by `max(0.0, min(100.0, base_score))`. -/
def calculate_score (result : ReviewResult) : ℚ :=
  let base_score : ℚ := 100
  let base_score := base_score - ((result.issues.map (fun i => severity_weights i.severity)).sum)
  let base_score :=
    if result.metrics.test_coverage < 80 then
      base_score - (80 - result.metrics.test_coverage) * 0.2
    else base_score
  let base_score :=
    if result.metrics.duplication_percentage > 5 then
      base_score - (result.metrics.duplication_percentage - 5) * 2
    else base_score
  max 0 (min 100 base_score)

/-- The `self.severity_thresholds` dict set in `ReviewParser.__init__`, in
insertion order; `none` models `float('inf')` (a count can never exceed it). -/
def severity_thresholds : List (Severity × Option Nat) :=
  [(.critical, some 0), (.error, some 0), (.warning, some 10), (.info, none)]

/-- The `severity_counts` tally built by the loop in `_determine_pass_status`. -/
def severityCount (issues : List CodeIssue) (s : Severity) : Nat :=
  (issues.filter (fun i => decide (i.severity = s))).length

/-- Python `ReviewParser._determine_pass_status`: returns `False` as soon as some
severity count exceeds its threshold, `True` otherwise; a `none` threshold
(`float('inf')` for INFO) can never be exceeded. -/
def determine_pass_status (result : ReviewResult) : Bool :=
  severity_thresholds.all (fun st =>
    match st.2 with
    | some threshold => decide (severityCount result.issues st.1 ≤ threshold)
    | none => true)

/-- Python `ReviewParser.parse_review_data`: builds the `ReviewResult`, then fills in
`score` and `passed`.  `datetime.now()` is passed in as `now`. -/
def parse_review_data (now : DateTime) (data : RawReviewData) : ReviewResult :=
  let result : ReviewResult :=
    { timestamp := now
      metrics := extract_metrics data
      issues := extract_issues data }
  let result := { result with score := calculate_score result }
  let result := { result with passed := determine_pass_status result }
  result

/-! ### Report generation

The source file's section-header strings contain literal mojibake characters
(the emoji bytes were re-decoded under a legacy codec before commit); they are
reproduced here exactly, as unicode escapes. -/

/-- Python `"%.1f"`-style formatting of a number to one decimal place.
Python formats the nearest double; on the exact rationals of this model we
round the tenths (ties away from zero), which agrees on every value whose
tenths digit is exact — all that the claims exercise. -/
def fmt1 (q : ℚ) : String :=
  let n : ℤ := round (q * 10)
  let a := n.natAbs
  (if n < 0 then "-" else "") ++ toString (a / 10) ++ "." ++ toString (a % 10)

/-- Python `"{:,}"` thousands grouping of a natural number. -/
def commaFmt (n : Nat) : String :=
  let ds := (toString n).data.reverse
  let grouped := (ds.enum.map (fun p =>
    if p.1 % 3 = 2 ∧ p.1 + 1 ≠ ds.length then [p.2, ','] else [p.2])).flatten
  ⟨grouped.reverse⟩

/-- Zero-pad to two digits (strftime `%m`, `%d`, `%H`, `%M`, `%S`). -/
def pad2 (n : Nat) : String :=
  if n < 10 then "0" ++ toString n else toString n

/-- Zero-pad to four digits (strftime `%Y`). -/
def pad4 (n : Nat) : String :=
  if n < 10 then "000" ++ toString n
  else if n < 100 then "00" ++ toString n
  else if n < 1000 then "0" ++ toString n
  else toString n

/-- Python `result.timestamp.strftime("%Y-%m-%d %H:%M:%S")`. -/
def strftimeYmdHMS (t : DateTime) : String :=
  pad4 t.year ++ "-" ++ pad2 t.month ++ "-" ++ pad2 t.day ++ " " ++
    pad2 t.hour ++ ":" ++ pad2 t.minute ++ ":" ++ pad2 t.second

/-- Python `issue.category.value.replace('_', ' ').title()`, evaluated per variant of
the closed enum. -/
def categoryTitle (c : IssueCategory) : String :=
  match c with
  | .architecture => "Architecture"
  | .code_quality => "Code Quality"
  | .testing => "Testing"
  | .security => "Security"
  | .documentation => "Documentation"
  | .performance => "Performance"
  | .anti_pattern => "Anti Pattern"

/-- Python `ReviewParser._format_issue`.  The Python `if issue.line_number:` /
`if issue.rule_id:` / `if issue.suggestion:` tests are truthiness tests, so a
present but zero line number or empty string is also omitted. -/
def format_issue (issue : CodeIssue) : List String :=
  let lines := ["#### " ++ categoryTitle issue.category,
                "- **File:** `" ++ issue.file_path ++ "`"]
  let lines := lines ++
    (match issue.line_number with
     | some ln => if ln = 0 then [] else ["- **Line:** " ++ toString ln]
     | none => [])
  let lines := lines ++
    (match issue.rule_id with
     | some r => if r = "" then [] else ["- **Rule:** " ++ r]
     | none => [])
  let lines := lines ++ ["- **Issue:** " ++ issue.message]
  let lines := lines ++
    (match issue.suggestion with
     | some s => if s = "" then [] else ["- **Suggestion:** " ++ s]
     | none => [])
  lines ++ [""]

/-- The per-severity buckets built by the grouping loop at the top of
`_generate_issues_section`: the issues of severity `s`, in input order. -/
def issuesBySeverity (issues : List CodeIssue) (s : Severity) : List CodeIssue :=
  issues.filter (fun i => decide (i.severity = s))

/-- Python `ReviewParser._generate_issues_section`: header, then one block per
non-empty bucket for CRITICAL, ERROR and WARNING (in that order); the INFO
bucket is never rendered. -/
def generate_issues_section (issues : List CodeIssue) : List String :=
  let lines := ["## üîç Code Quality Issues", ""]
  let lines := lines ++
    (if issuesBySeverity issues .critical ≠ [] then
      ["### üö® Critical Issues (Must Fix)", ""] ++
        ((issuesBySeverity issues .critical).map format_issue).flatten ++ [""]
    else [])
  let lines := lines ++
    (if issuesBySeverity issues .error ≠ [] then
      ["### ‚ùå Errors (Should Fix)", ""] ++
        ((issuesBySeverity issues .error).map format_issue).flatten ++ [""]
    else [])
  let lines := lines ++
    (if issuesBySeverity issues .warning ≠ [] then
      ["### ‚ö†Ô∏è Warnings", ""] ++
        ((issuesBySeverity issues .warning).map format_issue).flatten ++ [""]
    else [])
  lines

/-- Python `ReviewParser._generate_metrics_section`. -/
def generate_metrics_section (metrics : CodeMetrics) : List String :=
  let lines := [
    "## üìä Metrics",
    "",
    "### Code Quality Metrics",
    "| Metric | Value | Threshold | Status |",
    "|--------|-------|-----------|--------|",
    "| Lines of Code | " ++ commaFmt metrics.total_lines ++ " | - | ‚úÖ |",
    "| Avg Complexity | " ++ fmt1 metrics.avg_complexity ++ " | 10 | " ++
      (if metrics.avg_complexity ≤ 10 then "‚úÖ" else "‚ùå") ++ " |",
    "| Test Coverage | " ++ fmt1 metrics.test_coverage ++ "% | 80% | " ++
      (if metrics.test_coverage ≥ 80 then "‚úÖ" else "‚ö†Ô∏è") ++ " |",
    "| Code Duplication | " ++ fmt1 metrics.duplication_percentage ++ "% | < 5% | " ++
      (if metrics.duplication_percentage < 5 then "‚úÖ" else "‚ö†Ô∏è") ++ " |",
    "| Technical Debt | " ++ fmt1 metrics.technical_debt_ratio ++ "% | < 5% | " ++
      (if metrics.technical_debt_ratio < 5 then "‚úÖ" else "‚ö†Ô∏è") ++ " |",
    ""]
  let lines := lines ++
    (if metrics.layer_metrics ≠ [] then
      ["### Architecture Metrics",
       "| Layer | Files | Lines | Violations | Coverage |",
       "|-------|-------|-------|------------|----------|"] ++
      metrics.layer_metrics.map (fun p =>
        "| " ++ p.2.name ++ " | " ++ toString p.2.file_count ++ " | " ++
          commaFmt p.2.line_count ++ " | " ++ toString p.2.violation_count ++
          " | " ++ fmt1 p.2.test_coverage ++ "% |") ++
      [""]
    else [])
  lines

/-- Python `enumerate(recs, 1)` rendering of a recommendation tier. -/
def numberedList (recs : List String) : List String :=
  recs.enum.map (fun p => toString (p.1 + 1) ++ ". " ++ p.2)

/-- Python `ReviewParser._generate_recommendations`.  `low_priority` is built but
never populated in the source, so its tier is always omitted. -/
def generate_recommendations (result : ReviewResult) : List String :=
  let lines := ["## üí° Recommendations", ""]
  let high_priority : List String :=
    if result.metrics.test_coverage < 80 then
      ["Increase test coverage from " ++ fmt1 result.metrics.test_coverage ++
        "% to at least 80%"]
    else []
  let critical_count :=
    (result.issues.filter (fun i => decide (i.severity = Severity.critical))).length
  let high_priority := high_priority ++
    (if critical_count > 0 then
      ["Fix " ++ toString critical_count ++ " critical security/architecture issues"]
    else [])
  let medium_priority : List String :=
    if result.metrics.duplication_percentage > 5 then
      ["Reduce code duplication from " ++ fmt1 result.metrics.duplication_percentage ++
        "% to below 5%"]
    else []
  let arch_violations :=
    (result.issues.filter (fun i => decide (i.category = IssueCategory.architecture))).length
  let high_priority := high_priority ++
    (if arch_violations > 0 then
      ["Address " ++ toString arch_violations ++ " clean architecture violations"]
    else [])
  let low_priority : List String := []
  let lines := lines ++
    (if high_priority ≠ [] then
      ["### High Priority", ""] ++ numberedList high_priority ++ [""] else [])
  let lines := lines ++
    (if medium_priority ≠ [] then
      ["### Medium Priority", ""] ++ numberedList medium_priority ++ [""] else [])
  let lines := lines ++
    (if low_priority ≠ [] then
      ["### Low Priority", ""] ++ numberedList low_priority ++ [""] else [])
  lines

/-- Python `ReviewParser.generate_markdown_report`. -/
def generate_markdown_report (result : ReviewResult) : String :=
  let timestamp_str := strftimeYmdHMS result.timestamp
  let report_lines := [
    "# Code Review Summary",
    "",
    "**Generated:** " ++ timestamp_str,
    "**Reviewer:** AI Code Review System",
    "**Version:** 1.0.0",
    "",
    "---",
    "",
    "## Executive Summary",
    "",
    "### Overall Score: " ++ fmt1 result.score ++ "/100.0",
    "",
    "**Status:** " ++
      (if result.passed then "‚úÖ PASSED" else "‚ùå FAILED"),
    ""]
  let report_lines := report_lines ++ generate_metrics_section result.metrics
  let report_lines := report_lines ++ generate_issues_section result.issues
  let report_lines := report_lines ++ generate_recommendations result
  String.intercalate "\n" report_lines

/-! ### Spec-side definitions

Renderings of the specification's wording, to be compared with the
definitions above that were translated from the source. -/

/-- Spec §4.2: the fixed per-severity weights
(critical 10.0, error 5.0, warning 1.0, info 0.1). -/
def specSeverityWeight (s : Severity) : ℚ :=
  match s with
  | .critical => 10
  | .error => 5
  | .warning => 1
  | .info => 0.1

/-- Spec §4.2: "if test_coverage < 80: subtract (80 − test_coverage) × 0.2". -/
def coveragePenalty (m : CodeMetrics) : ℚ :=
  if m.test_coverage < 80 then (80 - m.test_coverage) * 0.2 else 0

/-- Spec §4.2: "if duplication_percentage > 5: subtract
(duplication_percentage − 5) × 2". -/
def duplicationPenalty (m : CodeMetrics) : ℚ :=
  if m.duplication_percentage > 5 then (m.duplication_percentage - 5) * 2 else 0

/-- Spec §4.2 score formula: 100 minus the summed severity weights, minus the
two metric penalties, clamped to [0, 100]. -/
def specScore (issues : List CodeIssue) (m : CodeMetrics) : ℚ :=
  max 0 (min 100
    (100 - (issues.map (fun i => specSeverityWeight i.severity)).sum
         - coveragePenalty m - duplicationPenalty m))

/-- The two weight tables coincide pointwise. -/
theorem severity_weights_eq_spec (s : Severity) :
    severity_weights s = specSeverityWeight s := by
  cases s <;> rfl

/-! ### Concrete sample values used by witnesses. -/

def sampleDate : DateTime := ⟨2024, 1, 1, 0, 0, 0⟩

def sampleWarnIssue : CodeIssue :=
  { category := .code_quality, severity := .warning, message := "w", file_path := "f.py" }

def sampleCritIssue : CodeIssue :=
  { category := .security, severity := .critical, message := "c", file_path := "g.py" }

def sampleInfoIssue : CodeIssue :=
  { category := .documentation, severity := .info, message := "i", file_path := "h.py" }

/-- Metrics with favorable coverage/duplication (no penalty fires). -/
def sampleGoodMetrics : CodeMetrics :=
  { test_coverage := 90, duplication_percentage := 3 }

def sampleGoodResult : ReviewResult :=
  { timestamp := sampleDate, metrics := sampleGoodMetrics,
    issues := [sampleWarnIssue, sampleCritIssue] }

/-! ### Claims -/

/-- C1.  The computed score equals the spec formula: start at 100.0, subtract
the fixed weight of each issue's severity (critical 10.0, error 5.0,
warning 1.0, info 0.1), subtract (80 − test_coverage) × 0.2 when coverage is
below 80 and (duplication − 5) × 2 when duplication exceeds 5, clamp to
[0, 100]; both metric adjustments are non-negative deductions and vanish when
coverage ≥ 80 resp. duplication ≤ 5. -/
theorem score_matches_spec_formula (r : ReviewResult) :
    calculate_score r = specScore r.issues r.metrics
    ∧ 0 ≤ coveragePenalty r.metrics
    ∧ 0 ≤ duplicationPenalty r.metrics
    ∧ (80 ≤ r.metrics.test_coverage → coveragePenalty r.metrics = 0)
    ∧ (r.metrics.duplication_percentage ≤ 5 → duplicationPenalty r.metrics = 0) := by
  have hw : (r.issues.map (fun i => severity_weights i.severity)).sum
      = (r.issues.map (fun i => specSeverityWeight i.severity)).sum := by
    exact congrArg List.sum
      (List.map_congr_left (fun i _ => severity_weights_eq_spec i.severity))
  refine ⟨?_, ?_, ?_, ?_, ?_⟩
  · unfold calculate_score specScore coveragePenalty duplicationPenalty
    rw [hw]
    by_cases h1 : r.metrics.test_coverage < 80 <;>
      by_cases h2 : r.metrics.duplication_percentage > 5 <;>
      simp only [h1, h2, if_pos, if_neg, if_true, if_false] <;> ring_nf
  · unfold coveragePenalty
    split
    · next h => nlinarith
    · exact le_refl 0
  · unfold duplicationPenalty
    split
    · next h => nlinarith
    · exact le_refl 0
  · intro h
    unfold coveragePenalty
    rw [if_neg (by linarith)]
  · intro h
    unfold duplicationPenalty
    rw [if_neg (by linarith)]

/-- C1 witness: the theorem applied at a concrete result whose metrics
satisfy both hypotheses. -/
theorem score_matches_spec_formula_witness :
    calculate_score sampleGoodResult = specScore sampleGoodResult.issues sampleGoodResult.metrics
    ∧ coveragePenalty sampleGoodResult.metrics = 0
    ∧ duplicationPenalty sampleGoodResult.metrics = 0 := by
  have h := score_matches_spec_formula sampleGoodResult
  exact ⟨h.1, h.2.2.2.1 (by norm_num [sampleGoodResult, sampleGoodMetrics]),
         h.2.2.2.2 (by norm_num [sampleGoodResult, sampleGoodMetrics])⟩

/-- C3.  For every raw input, the score stored in the parsed `ReviewResult`
lies in the closed interval [0, 100]. -/
theorem parsed_score_in_range (now : DateTime) (data : RawReviewData) :
    0 ≤ (parse_review_data now data).score ∧ (parse_review_data now data).score ≤ 100 := by
  have h : (parse_review_data now data).score
      = calculate_score { timestamp := now, metrics := extract_metrics data,
                          issues := extract_issues data } := rfl
  rw [h]
  unfold calculate_score
  constructor
  · exact le_max_left _ _
  · exact max_le (by norm_num) (min_le_left _ _)

/-- C6.  The score is order-independent: results with the same metrics and
permuted issue lists get the same score. -/
theorem score_perm_invariant (r₁ r₂ : ReviewResult)
    (hm : r₁.metrics = r₂.metrics) (hp : r₁.issues.Perm r₂.issues) :
    calculate_score r₁ = calculate_score r₂ := by
  unfold calculate_score
  rw [hm, (hp.map (fun i => severity_weights i.severity)).sum_eq]

def samplePermResultA : ReviewResult :=
  { timestamp := sampleDate, metrics := sampleGoodMetrics,
    issues := [sampleWarnIssue, sampleCritIssue] }

def samplePermResultB : ReviewResult :=
  { timestamp := sampleDate, metrics := sampleGoodMetrics,
    issues := [sampleCritIssue, sampleWarnIssue] }

/-- C6 witness: the theorem applied to two concrete results whose issue lists
are a transposition of one another. -/
theorem score_perm_invariant_witness :
    calculate_score samplePermResultA = calculate_score samplePermResultB :=
  score_perm_invariant samplePermResultA samplePermResultB rfl
    (List.Perm.swap sampleCritIssue sampleWarnIssue [])

/-- C9.  Rendering is deterministic: the report text is a function of the
`ReviewResult` value alone (the timestamp being part of that value), so two
renderings of the same value are byte-identical. -/
theorem render_deterministic (r₁ r₂ : ReviewResult) (h : r₁ = r₂) :
    generate_markdown_report r₁ = generate_markdown_report r₂ := by
  rw [h]

/-- C9 witness: the theorem applied at a concrete result. -/
theorem render_deterministic_witness :
    generate_markdown_report sampleGoodResult = generate_markdown_report sampleGoodResult :=
  render_deterministic sampleGoodResult sampleGoodResult rfl

/-- A result with exactly 10 warnings and a rock-bottom score. -/
def tenWarningsResult : ReviewResult :=
  { timestamp := sampleDate, metrics := {},
    issues := List.replicate 10 sampleWarnIssue, score := 0 }

/-- A result with 11 warnings and a perfect score. -/
def elevenWarningsResult : ReviewResult :=
  { timestamp := sampleDate, metrics := {},
    issues := List.replicate 11 sampleWarnIssue, score := 100 }

/-- C2.  The verdict is fail exactly when critical > 0, error > 0 or
warning > 10; the info count never appears in the condition; the verdict
ignores the stored score; a result with exactly 10 warnings (and score 0)
passes while one with 11 warnings (and score 100) fails. -/
theorem verdict_thresholds :
    (∀ r : ReviewResult,
      determine_pass_status r = false ↔
        0 < severityCount r.issues .critical ∨ 0 < severityCount r.issues .error ∨
          10 < severityCount r.issues .warning)
    ∧ (∀ (r : ReviewResult) (q : ℚ),
        determine_pass_status { r with score := q } = determine_pass_status r)
    ∧ determine_pass_status tenWarningsResult = true
    ∧ determine_pass_status elevenWarningsResult = false := by
  refine ⟨?_, fun r q => rfl, by rfl, by rfl⟩
  intro r
  unfold determine_pass_status severity_thresholds
  simp [List.all_cons, List.all_nil]
  omega

/-- An issue element the ingestor skips: it is missing `message` or `file`, or
carries a category or severity string the enums do not recognize. -/
def malformedRaw (r : RawIssue) : Bool :=
  r.message.isNone || r.file.isNone ||
    (categoryOfString (r.category.getD "code_quality")).isNone ||
    (severityOfString (r.severity.getD "info")).isNone

theorem extractIssue_eq_none_iff (r : RawIssue) :
    extractIssue r = none ↔ malformedRaw r = true := by
  unfold extractIssue malformedRaw
  cases hc : categoryOfString (r.category.getD "code_quality") <;>
    cases hs : severityOfString (r.severity.getD "info") <;>
    cases hm : r.message <;> cases hf : r.file <;> simp [hm, hf]

theorem extractIssue_isSome_eq (r : RawIssue) :
    (extractIssue r).isSome = !(malformedRaw r) := by
  cases h : extractIssue r with
  | none =>
    rw [(extractIssue_eq_none_iff r).mp h]
    rfl
  | some i =>
    have hm : ¬ malformedRaw r = true := by
      intro hmm
      rw [(extractIssue_eq_none_iff r).mpr hmm] at h
      exact Option.noConfusion h
    simp [Bool.eq_false_iff.mpr hm]

theorem filterMap_filter_isSome {α β : Type} (f : α → Option β) (l : List α) :
    l.filterMap f = (l.filter (fun x => (f x).isSome)).filterMap f := by
  induction l with
  | nil => rfl
  | cons x xs ih =>
    cases h : f x with
    | none => simp [List.filterMap_cons, List.filter_cons, h, ih]
    | some b => simp [List.filterMap_cons, List.filter_cons, h, ih]

/-- C4.  Malformed issue elements (missing `message`/`file`, or an
unrecognized category or severity string — exactly the cases of
`malformedRaw`) are skipped individually: the whole parse result (issue list,
score and verdict) equals the parse of the input with those elements
removed. -/
theorem malformed_issues_skipped (now : DateTime) (m : Option RawMetrics)
    (l : List RawIssue) :
    parse_review_data now ⟨m, some l⟩ =
      parse_review_data now ⟨m, some (l.filter (fun r => !(malformedRaw r)))⟩ := by
  have hiss : extract_issues ⟨m, some l⟩ =
      extract_issues ⟨m, some (l.filter (fun r => !(malformedRaw r)))⟩ := by
    show l.filterMap extractIssue
        = (l.filter (fun r => !(malformedRaw r))).filterMap extractIssue
    rw [filterMap_filter_isSome extractIssue l]
    congr 1
    exact List.filter_congr (fun x _ => extractIssue_isSome_eq x)
  unfold parse_review_data
  rw [hiss]
  rfl

/-- A raw element whose `message` and `file` are present but empty. -/
def emptyFieldRawIssue : RawIssue := { message := some "", file := some "" }

/-- C5 counterexample: the ingestor checks only that `message` and `file` are
present, not that they are non-empty — an element with empty-string `message`
and `file` is kept, refuting the claim as stated. -/
theorem empty_message_kept :
    ¬ (∀ (now : DateTime) (data : RawReviewData),
        ∀ i ∈ (parse_review_data now data).issues,
          i.message ≠ "" ∧ i.file_path ≠ "") := by
  intro h
  have hlist : (parse_review_data sampleDate ⟨none, some [emptyFieldRawIssue]⟩).issues
      = [{ category := .code_quality, severity := .info, message := "", file_path := "" }] := rfl
  have h2 := h sampleDate ⟨none, some [emptyFieldRawIssue]⟩
    { category := .code_quality, severity := .info, message := "", file_path := "" }
    (by rw [hlist]; exact List.mem_singleton_self _)
  exact h2.1 rfl

theorem extractIssue_some_inv (r : RawIssue) (i : CodeIssue)
    (h : extractIssue r = some i) :
    r.message = some i.message ∧ r.file = some i.file_path := by
  unfold extractIssue at h
  cases hc : categoryOfString (r.category.getD "code_quality")
  · rw [hc] at h; simp at h
  cases hs : severityOfString (r.severity.getD "info")
  · rw [hc, hs] at h; simp at h
  cases hm : r.message
  · rw [hc, hs, hm] at h; simp at h
  cases hf : r.file
  · rw [hc, hs, hm, hf] at h; simp at h
  rw [hc, hs, hm, hf] at h
  simp at h
  subst h
  exact ⟨rfl, rfl⟩

/-- C5 amended: every issue in the ingested result has `message` and `file`
*present* in its raw element (elements missing them are dropped, not
defaulted); emptiness of the strings is not checked. -/
theorem ingested_fields_present (now : DateTime) (data : RawReviewData)
    (i : CodeIssue) (h : i ∈ (parse_review_data now data).issues) :
    ∃ r ∈ data.issues.getD [], r.message = some i.message ∧ r.file = some i.file_path := by
  have h' : i ∈ (data.issues.getD []).filterMap extractIssue := h
  rcases List.mem_filterMap.mp h' with ⟨r, hr, hfr⟩
  exact ⟨r, hr, extractIssue_some_inv r i hfr⟩

/-- A fully well-formed raw element. -/
def goodRawIssue : RawIssue :=
  { category := some "security", severity := some "warning",
    message := some "msg", file := some "file.py" }

/-- C5 amended witness: the amended theorem applied at a concrete input. -/
theorem ingested_fields_present_witness :
    ∃ r ∈ ((⟨none, some [goodRawIssue]⟩ : RawReviewData)).issues.getD [],
      r.message = some "msg" ∧ r.file = some "file.py" :=
  ingested_fields_present sampleDate ⟨none, some [goodRawIssue]⟩
    { category := .security, severity := .warning, message := "msg", file_path := "file.py" }
    (by
      rw [show (parse_review_data sampleDate ⟨none, some [goodRawIssue]⟩).issues
            = [{ category := .security, severity := .warning,
                 message := "msg", file_path := "file.py" }] from rfl]
      exact List.mem_singleton_self _)

/-- C2 witness: the iff of the theorem applied at a concrete result with one
critical issue, discharging the right-hand side. -/
theorem verdict_thresholds_witness :
    determine_pass_status
      { timestamp := sampleDate, metrics := {}, issues := [sampleCritIssue] } = false := by
  have h := verdict_thresholds
  exact (h.1 _).mpr (Or.inl (by decide))

/-- Spec §4.4 subsection for one severity: header, blank line, the formatted
issues of that severity in input order, trailing blank line; no subsection at
all when no issue of that severity is present. -/
def issueSubsection (s : Severity) (header : String) (issues : List CodeIssue) : List String :=
  if issuesBySeverity issues s = [] then []
  else [header, ""] ++ ((issuesBySeverity issues s).map format_issue).flatten ++ [""]

theorem issuesBySeverity_drop_info (issues : List CodeIssue) (s : Severity)
    (hs : s ≠ .info) :
    issuesBySeverity (issues.filter (fun i => !(decide (i.severity = .info)))) s
      = issuesBySeverity issues s := by
  unfold issuesBySeverity
  rw [List.filter_filter]
  apply List.filter_congr
  intro x _
  by_cases h : x.severity = s
  · simp [h, hs]
  · simp [h]

/-- C7.  The rendered issues section is the fixed header followed by exactly
one subsection per severity present, in the order critical, error, warning
(a subsection is empty iff no issue of its severity exists); info-severity
issues never contribute to the section. -/
theorem issues_section_structure (issues : List CodeIssue) :
    generate_issues_section issues =
      ["## \uF8FF\u00FC\u00EE\u00E7 Code Quality Issues", ""] ++
        issueSubsection .critical "### \uF8FF\u00FC\u00F6\u00AE Critical Issues (Must Fix)" issues ++
        issueSubsection .error "### ‚ùå Errors (Should Fix)" issues ++
        issueSubsection .warning "### ‚ö†Ô∏è Warnings" issues
    ∧ (∀ (s : Severity) (header : String),
        issueSubsection s header issues = [] ↔ issuesBySeverity issues s = [])
    ∧ generate_issues_section (issues.filter (fun i => !(decide (i.severity = .info))))
        = generate_issues_section issues := by
  refine ⟨?_, ?_, ?_⟩
  · unfold generate_issues_section issueSubsection
    by_cases hc : issuesBySeverity issues .critical = [] <;>
      by_cases he : issuesBySeverity issues .error = [] <;>
      by_cases hw : issuesBySeverity issues .warning = [] <;>
      simp [hc, he, hw]
  · intro s header
    unfold issueSubsection
    by_cases h : issuesBySeverity issues s = [] <;> simp [h]
  · unfold generate_issues_section
    rw [issuesBySeverity_drop_info issues .critical (by decide),
        issuesBySeverity_drop_info issues .error (by decide),
        issuesBySeverity_drop_info issues .warning (by decide)]

/-- C7 witness: the emptiness iff of the theorem at a concrete list. -/
theorem issues_section_structure_witness :
    issueSubsection .critical "h" ([] : List CodeIssue) = []
      ↔ issuesBySeverity ([] : List CodeIssue) .critical = [] :=
  (issues_section_structure []).2.1 .critical "h"

/-- C8.  Metrics ingestion is total and default-filling: an absent `metrics`
sub-tree yields the all-zero `CodeMetrics` with an empty layer mapping; with
the sub-tree present, each absent field individually defaults to zero (and an
absent `layers` to the empty mapping); each layer entry's absent fields
likewise default to zero, and every raw layer entry appears converted in the
result. -/
theorem metrics_defaults :
    (∀ iss : Option (List RawIssue), extract_metrics ⟨none, iss⟩ = {})
    ∧ (∀ (m : RawMetrics) (iss : Option (List RawIssue)),
        (m.total_files = none → (extract_metrics ⟨some m, iss⟩).total_files = 0)
        ∧ (m.total_lines = none → (extract_metrics ⟨some m, iss⟩).total_lines = 0)
        ∧ (m.avg_complexity = none → (extract_metrics ⟨some m, iss⟩).avg_complexity = 0)
        ∧ (m.test_coverage = none → (extract_metrics ⟨some m, iss⟩).test_coverage = 0)
        ∧ (m.duplication = none → (extract_metrics ⟨some m, iss⟩).duplication_percentage = 0)
        ∧ (m.tech_debt_ratio = none → (extract_metrics ⟨some m, iss⟩).technical_debt_ratio = 0)
        ∧ (m.layers = none → (extract_metrics ⟨some m, iss⟩).layer_metrics = []))
    ∧ (∀ (lname : String) (rl : RawLayer),
        (rl.files = none → (extractLayer lname rl).file_count = 0)
        ∧ (rl.lines = none → (extractLayer lname rl).line_count = 0)
        ∧ (rl.violations = none → (extractLayer lname rl).violation_count = 0)
        ∧ (rl.coverage = none → (extractLayer lname rl).test_coverage = 0))
    ∧ (∀ (m : RawMetrics) (iss : Option (List RawIssue)),
        (extract_metrics ⟨some m, iss⟩).layer_metrics
          = (m.layers.getD []).map (fun p => (p.1, extractLayer p.1 p.2))) := by
  refine ⟨fun iss => rfl,
          fun m iss => ⟨?_, ?_, ?_, ?_, ?_, ?_, ?_⟩,
          fun lname rl => ⟨?_, ?_, ?_, ?_⟩,
          fun m iss => rfl⟩ <;>
    · intro h
      simp [extract_metrics, extractLayer, h]

/-- C8 witness: the theorem applied at concrete all-absent raw values. -/
theorem metrics_defaults_witness :
    extract_metrics ⟨none, none⟩ = ({} : CodeMetrics)
    ∧ (extract_metrics ⟨some {}, none⟩).total_files = 0
    ∧ (extract_metrics ⟨some {}, none⟩).layer_metrics = []
    ∧ (extractLayer "core" {}).file_count = 0 := by
  have h := metrics_defaults
  exact ⟨h.1 none, (h.2.1 {} none).1 rfl, (h.2.1 {} none).2.2.2.2.2.2 rfl,
         (h.2.2.1 "core" {}).1 rfl⟩

/-- C10.  A raw element with `message` and `file` present but no `category` or
`severity` key is kept: category defaults to `code_quality`, severity to
`info`; an info issue adds exactly 0.1 to the deduction sum and adding it
never changes the verdict. -/
theorem default_category_and_severity :
    (∀ (msg fp : String) (ln : Option Int) (sug rid : Option String),
      extractIssue { category := none, severity := none, message := some msg,
                     file := some fp, line := ln, suggestion := sug, rule_id := rid }
        = some { category := .code_quality, severity := .info, message := msg,
                 file_path := fp, line_number := ln, suggestion := sug, rule_id := rid })
    ∧ severity_weights .info = 0.1
    ∧ (∀ (l : List CodeIssue) (i : CodeIssue), i.severity = .info →
        ((i :: l).map (fun j => severity_weights j.severity)).sum
          = (l.map (fun j => severity_weights j.severity)).sum + 0.1)
    ∧ (∀ (r : ReviewResult) (i : CodeIssue), i.severity = .info →
        determine_pass_status { r with issues := i :: r.issues }
          = determine_pass_status r) := by
  refine ⟨fun msg fp ln sug rid => rfl, rfl, ?_, ?_⟩
  · intro l i h
    simp [severity_weights, h, add_comm]
  · intro r i h
    unfold determine_pass_status severity_thresholds severityCount
    simp [List.filter_cons, h]

/-- C10 witness: the theorem applied at concrete inputs (an element with only
`message` and `file`, and a concrete info issue). -/
theorem default_category_and_severity_witness :
    extractIssue { category := none, severity := none,
                   message := some "m", file := some "f" }
      = some { category := .code_quality, severity := .info,
               message := "m", file_path := "f" }
    ∧ (([sampleInfoIssue]).map (fun j => severity_weights j.severity)).sum
        = (([] : List CodeIssue).map (fun j => severity_weights j.severity)).sum + 0.1
    ∧ determine_pass_status
        { timestamp := sampleDate, metrics := {}, issues := [sampleInfoIssue] }
      = determine_pass_status { timestamp := sampleDate, metrics := {} } := by
  have h := default_category_and_severity
  exact ⟨h.1 "m" "f" none none none, h.2.2.1 [] sampleInfoIssue rfl,
         h.2.2.2 { timestamp := sampleDate, metrics := {} } sampleInfoIssue rfl⟩

end ReviewParser
